import Mathlib

/-!
Verification development for the Chattr-Platform approval-gated agent core.

The Lean definitions below are shallow embeddings of the Python sources:
  - src/agent_tools/ragis_logger.py  (PII-masking event logger)
  - src/secure_vault.py              (PIN-keyed secret vault)
  - src/agent_tools/files.py         (file edit/create propose and resolve handlers)
  - src/agent_tools/shell.py         (shell / pip / npm propose and resolve handlers)
  - src/agent_tools/task_manager.py  (heapq-based priority task queue)

Conventions of the embedding:
  - Python dicts used as string-keyed maps become association lists
    (`List (String × α)`) with first-match lookup and in-place update,
    mirroring dict insertion-order semantics.
  - The filesystem is a map from path to file content; `os.remove` deletes
    the entry, `open(..., "w")` overwrites it.
  - Fernet authenticated encryption is abstracted as a pairing of the
    key-deriving PIN with the serialized payload: decryption succeeds
    exactly when the same PIN is supplied, otherwise it raises
    `InvalidToken`, which `load_vault` maps to the sentinel `none`.
  - `subprocess.run` and `difflib.unified_diff` are external effects,
    passed in as opaque function parameters; executed commands are
    collected in an explicit trace list.
  - `datetime.now()` timestamps and `tempfile` names are passed as
    explicit arguments.
  - Python `heapq` comparisons on `(int, dict)` tuples are partial:
    comparing two unequal dicts raises `TypeError`.  The heap code is
    therefore embedded in the `Except Unit` monad, with fuel-indexed
    loops (the fuel supplied always dominates the loop bound).
-/

/-! ## String helpers (Python `str.lower`, `str.strip`, `in`, `startswith`) -/

/-- Character-wise ASCII lowering, modelling Python `str.lower`. -/
def strLower (s : String) : String := String.mk (s.data.map Char.toLower)

/-- Whitespace test used by Python `str.strip`. -/
def isSpaceCh (c : Char) : Bool := c = ' ' || c = '\t' || c = '\n' || c = '\r'

/-- Modelling Python `str.strip`: drop whitespace from both ends. -/
def stripStr (s : String) : String :=
  String.mk (((s.data.dropWhile isSpaceCh).reverse.dropWhile isSpaceCh).reverse)

/-- List version of `startswith`. -/
def listStarts : List Char → List Char → Bool
  | _, [] => true
  | [], _ :: _ => false
  | a :: as, b :: bs => a == b && listStarts as bs

/-- List version of the Python substring test `pat in s`. -/
def listSub : List Char → List Char → Bool
  | [], pat => pat.isEmpty
  | a :: as, pat => listStarts (a :: as) pat || listSub as pat

/-- Python `pat in s` on strings. -/
def strHasSub (s pat : String) : Bool := listSub s.data pat.data

/-- Python `s.startswith(pre)`. -/
def strStarts (s pre : String) : Bool := listStarts s.data pre.data

/-! ## Association-list maps (Python dict) -/

/-- First-match lookup, modelling `d.get(k)`. -/
def vGet {α : Type} (m : List (String × α)) (k : String) : Option α :=
  match m with
  | [] => none
  | (k0, v) :: rest => if k0 = k then some v else vGet rest k

/-- Update-or-append, modelling `d[k] = v` on an insertion-ordered dict. -/
def vSet {α : Type} (m : List (String × α)) (k : String) (v : α) : List (String × α) :=
  match m with
  | [] => [(k, v)]
  | (k0, v0) :: rest => if k0 = k then (k0, v) :: rest else (k0, v0) :: vSet rest k v

/-- Deletion of a key, modelling `os.remove` on the path-to-content map. -/
def fsRemove : List (String × String) → String → List (String × String)
  | [], _ => []
  | (k0, v) :: rest, k => if k0 = k then fsRemove rest k else (k0, v) :: fsRemove rest k

/-- Filesystem model: map from absolute path to file content. -/
abbrev Fs : Type := List (String × String)

/-- Existence test, modelling `os.path.exists`. -/
def fsExists (fs : Fs) (path : String) : Bool := (vGet fs path).isSome

/-! ## RagisLogger (src/agent_tools/ragis_logger.py) -/

mutual
/-- JSON-like Python value stored in a log event's `data` mapping. -/
inductive PyVal where
  | str (s : String)
  | num (n : Int)
  | boolv (b : Bool)
  | nullv
  | dict (kvs : PyFields)
  | arr (xs : PyArr)
deriving DecidableEq
/-- Ordered fields of a Python dict value. -/
inductive PyFields where
  | nil
  | cons (k : String) (v : PyVal) (rest : PyFields)
deriving DecidableEq
/-- Elements of a Python list value. -/
inductive PyArr where
  | nil
  | cons (v : PyVal) (rest : PyArr)
deriving DecidableEq
end

mutual
/-- RagisLogger._mask_pii: strings become the fixed placeholder, dicts and
lists are masked recursively, every other value becomes Python `None`. -/
def maskPii : PyVal → PyVal
  | .str _ => .str "[MASKED]"
  | .dict kvs => .dict (maskFields kvs)
  | .arr xs => .arr (maskArr xs)
  | _ => .nullv
/-- Recursive masking of dict fields. -/
def maskFields : PyFields → PyFields
  | .nil => .nil
  | .cons k v rest => .cons k (maskPii v) (maskFields rest)
/-- Recursive masking of list elements. -/
def maskArr : PyArr → PyArr
  | .nil => .nil
  | .cons v rest => .cons (maskPii v) (maskArr rest)
end

/-- Lookup of a field in an event data dict. -/
def fGet (d : PyFields) (k : String) : Option PyVal :=
  match d with
  | .nil => none
  | .cons k0 v rest => if k0 = k then some v else fGet rest k

/-- Application of `f` to the value stored under `k` (no-op when `k` is absent),
modelling `masked[field] = f(masked[field])` guarded by `if field in masked`. -/
def setField (k : String) (f : PyVal → PyVal) : PyFields → PyFields
  | .nil => .nil
  | .cons k0 v rest =>
      if k0 = k then .cons k0 (f v) (setField k f rest)
      else .cons k0 v (setField k f rest)

/-- RagisLogger.log masking pass: each configured field present in the data
is replaced by its `_mask_pii` image. -/
def maskData (cfg : List String) (data : PyFields) : PyFields :=
  cfg.foldl (fun acc field => setField field maskPii acc) data

/-- Logger instance: log file path and configured PII mask fields. -/
structure RagisLogger where
  log_path : String
  pii_mask_fields : List String
deriving DecidableEq

/-- One appended log line (src/agent_tools/ragis_logger.py `log`). -/
structure EventRecord where
  ts : String
  event_type : String
  system_version : String
  tagging_version : String
  data : PyFields
deriving DecidableEq

/-- RagisLogger.log: builds the event record with masked data; the UTC
timestamp is passed explicitly. -/
def RagisLogger.log (lg : RagisLogger) (ts event_type : String) (data : PyFields) :
    EventRecord :=
  { ts := ts, event_type := event_type, system_version := "1.0.0",
    tagging_version := "1.0.0", data := maskData lg.pii_mask_fields data }

/-! ## Secret vault (src/secure_vault.py) -/

/-- One archived value of a secret: `{"value": ..., "timestamp": ...}`. -/
structure ArchiveItem where
  value : String
  timestamp : String
deriving DecidableEq

/-- One secret entry; `Option` fields model presence of the dict keys
`current`, `last_update`, `archive`, `deleted`, `deleted_date`. -/
structure SecretEntry where
  current : Option String
  last_update : Option String
  archive : Option (List ArchiveItem)
  deleted : Option Bool
  deleted_date : Option String
deriving DecidableEq

/-- Decrypted vault content: name-to-entry dict. -/
abbrev Vault : Type := List (String × SecretEntry)

/-- Vault file on disk: the Fernet blob, abstracted as the deriving PIN
paired with the serialized vault (decryption succeeds only under the
same PIN). -/
structure VFile where
  pin : String
  data : Vault
deriving DecidableEq

/-- load_vault: no vault file yields the empty vault `{}`; a mismatched PIN
raises `InvalidToken`, reported as the sentinel `none`. -/
def load_vault (fs : Option VFile) (pin : String) : Option Vault :=
  match fs with
  | none => some []
  | some vf => if vf.pin = pin then some vf.data else none

/-- save_vault: encrypt the vault under `pin` and overwrite the vault file. -/
def save_vault (_fs : Option VFile) (secrets : Vault) (pin : String) : Option VFile :=
  some ⟨pin, secrets⟩

/-- set_secret: validates name and value, loads the vault (`or {}` turns a
failed decryption into an empty vault), archives any existing current
value, then saves. -/
def set_secret (fs : Option VFile) (name value pin ts : String) : Option VFile :=
  if name = "" then fs
  else if value = "" then fs
  else
    let secrets := (load_vault fs pin).getD []
    let entry : SecretEntry :=
      match vGet secrets name with
      | some e =>
        match e.current with
        | some c =>
          { e with archive := some (⟨c, e.last_update.getD ts⟩ :: e.archive.getD []),
                   current := some value, last_update := some ts }
        | none => ⟨some value, some ts, some [], none, none⟩
      | none => ⟨some value, some ts, some [], none, none⟩
    save_vault fs (vSet secrets name entry) pin

/-- get_secret: current value, or the version-th archived value. -/
def get_secret (fs : Option VFile) (name pin : String) (archived : Bool) (version : Nat) :
    Option String :=
  let secrets := (load_vault fs pin).getD []
  match vGet secrets name with
  | none => none
  | some e =>
    if !archived then e.current
    else
      match e.archive with
      | some ar => if version < ar.length then some ((ar.getD version ⟨"", ""⟩).value) else none
      | none => none

/-- restore_secret: pops archive[version] into `current`, pushing the prior
current to archive position 0; fails (leaving the file untouched) when the
secret or the version is missing. -/
def restore_secret (fs : Option VFile) (name pin ts : String) (version : Nat) :
    Bool × Option VFile :=
  let secrets := (load_vault fs pin).getD []
  match vGet secrets name with
  | none => (false, fs)
  | some e =>
    match e.archive with
    | none => (false, fs)
    | some ar =>
      if ar.length ≤ version then (false, fs)
      else
        let archive_entry := ar.getD version ⟨"", ""⟩
        let ar2 := ar.eraseIdx version
        let e2 : SecretEntry :=
          match e.current with
          | some c =>
            { e with archive := some (⟨c, e.last_update.getD ts⟩ :: ar2),
                     current := some archive_entry.value, last_update := some ts }
          | none =>
            { e with archive := some ar2,
                     current := some archive_entry.value, last_update := some ts }
        (true, save_vault fs (vSet secrets name e2) pin)

/-! ## Session state shared by the approval-gated handlers -/

/-- Payload of `session_state["pending_file_change"]`. -/
structure PendingFileChange where
  abs_path : String
  content : String
  op_type : String
  backup_path : Option String
  temp_path : String
deriving DecidableEq

/-- Session-scoped mutable state: the trust flag and the one pending-action
slot per handler kind. -/
structure SessionState where
  global_approval : Bool := false
  pending_file_change : Option PendingFileChange := none
  pending_shell_cmd : Option (String × String) := none
  pending_pip_install : Option String := none
  pending_npm_install : Option (String ⊕ (String × String)) := none
deriving DecidableEq

namespace Files

/-- Affirmative-phrase test of src/agent_tools/files.py. -/
def is_affirmative (msg : String) : Bool :=
  let affirm := ["yes", "ok", "allow", "approve", "go ahead", "sure", "yep", "accepted",
                 "affirm", "green light", "do it", "confirmed"]
  let msg_low := strLower (stripStr msg)
  affirm.any (fun word => strHasSub msg_low word)

/-- backup_file: timestamped copy alongside the original, `none` when the
target does not exist. -/
def backup_file (fs : Fs) (abs_path ts : String) : Option String × Fs :=
  if fsExists fs abs_path then
    let bpath := abs_path ++ ".bak." ++ ts
    (some bpath, vSet fs bpath ((vGet fs abs_path).getD ""))
  else (none, fs)

/-- edit_or_create_file (the propose step): confines the path to the home
root, backs up a pre-existing target, stages the new content in a temp
file, computes a diff preview (`diffFn` stands for difflib.unified_diff)
and records the pending file change. -/
def edit_or_create_file (home path content ts temp_path : String)
    (diffFn : String → String → String) (st : SessionState) (fs : Fs) :
    String × SessionState × Fs :=
  if strStarts path home then
    let existed := fsExists fs path
    let op_type := if existed then "edit" else "create"
    let bk := if existed then backup_file fs path ts else (none, fs)
    let fs2 := vSet bk.2 temp_path content
    let diff_text :=
      match bk.1 with
      | some bp => diffFn ((vGet fs2 bp).getD "") ((vGet fs2 temp_path).getD "")
      | none =>
        if fsExists fs2 path then diffFn ((vGet fs2 path).getD "") ((vGet fs2 temp_path).getD "")
        else ""
    let st2 := { st with pending_file_change := some ⟨path, content, op_type, bk.1, temp_path⟩ }
    ("I would like to " ++ op_type ++ " the file:\n" ++ path ++ "\n" ++ diff_text, st2, fs2)
  else
    ("Permission denied: Only files under your user directory can be edited/created.", st, fs)

/-- handle_pending_file_change (the resolve step): writes and cleans up on
approval, discards the staged temp file on denial; no-op when nothing is
pending. -/
def handle_pending_file_change (user_message : String) (st : SessionState) (fs : Fs) :
    Option String × SessionState × Fs :=
  match st.pending_file_change with
  | none => (none, st, fs)
  | some pfc =>
    let auto_approve := st.global_approval
    let st2 := { st with pending_file_change := none }
    if auto_approve || is_affirmative user_message then
      let fs2 := fsRemove (vSet fs pfc.abs_path pfc.content) pfc.temp_path
      (some ("File " ++ pfc.abs_path ++ " " ++ pfc.op_type ++ "d successfully."), st2, fs2)
    else
      (some "File edit/create was not approved. Cancelling.", st2, fsRemove fs pfc.temp_path)

end Files

namespace Shell

/-- Safe-command allowlist of src/agent_tools/shell.py. -/
def safe_cmds : List String :=
  ["ls", "dir", "npm install", "npm run", "npm build", "pip install", "pip list",
   "python", "pytest", "make", "echo", "pip freeze", "npm start", "node", "which", "where"]

/-- Destructive-substring denylist of src/agent_tools/shell.py. -/
def blocklist : List String :=
  ["rm -rf", "del /f", "shutdown", "format", "dd ", "mkfs", "poweroff"]

/-- Affirmative-phrase test of src/agent_tools/shell.py. -/
def is_affirmative (msg : String) : Bool :=
  ["yes", "ok", "allow", "approve", "go ahead"].any (fun word => strHasSub (strLower msg) word)

/-- run_shell_command: denylisted commands are rejected outright, allowlisted
safe commands run immediately (`runSub` stands for subprocess.run; the
trace lists the commands actually executed), everything else is parked as
the pending shell command. -/
def run_shell_command (runSub : String → String → String) (cmd cwd : String)
    (st : SessionState) : String × SessionState × List String :=
  if blocklist.any (fun bad => strHasSub (strLower cmd) bad) then
    ("[BLOCKED] That command is not permitted for safety.", st, [])
  else if !(safe_cmds.any (fun pre => strStarts (strLower cmd) pre)) then
    ("Agent wants to run shell command: " ++ cmd ++ " in " ++ cwd ++
     " - ok to run? (yes/ok/approve)", { st with pending_shell_cmd := some (cmd, cwd) }, [])
  else
    ("Shell output (clipped):\n" ++ runSub cmd cwd, st, [cmd])

/-- handle_pending_shell_cmd: pops the pending command; runs it only on
global approval or an affirmative message, otherwise cancels. -/
def handle_pending_shell_cmd (runSub : String → String → String) (user_message : String)
    (st : SessionState) : Option String × SessionState × List String :=
  match st.pending_shell_cmd with
  | none => (none, st, [])
  | some cc =>
    let st2 := { st with pending_shell_cmd := none }
    if st.global_approval || is_affirmative user_message then
      (some ("Shell output (approved):\n" ++ runSub cc.1 cc.2), st2, [cc.1])
    else
      (some "Shell command cancelled.", st2, [])

/-- run_pip_install (propose): parks the package for approval. -/
def run_pip_install (package : Option String) (st : SessionState) : String × SessionState :=
  match package with
  | none => ("No package specified for pip install.", st)
  | some p =>
    if p = "" then ("No package specified for pip install.", st)
    else ("Agent wants to run pip install " ++ p ++ ". Ok to run? (yes/ok/approve)",
          { st with pending_pip_install := some p })

/-- handle_pending_pip_install (resolve); an empty stored package is falsy in
Python, so the branch is skipped without popping. -/
def handle_pending_pip_install (runPip : String → String) (user_message : String)
    (st : SessionState) : Option String × SessionState × List String :=
  match st.pending_pip_install with
  | none => (none, st, [])
  | some p =>
    if p = "" then (none, st, [])
    else
      let st2 := { st with pending_pip_install := none }
      if st.global_approval || is_affirmative user_message then
        (some ("pip install output:\n" ++ runPip p), st2, [p])
      else
        (some "pip install cancelled.", st2, [])

/-- run_npm_install (propose): stores either the bare working directory or
the package-directory pair. -/
def run_npm_install (package : Option String) (cwd : String) (st : SessionState) :
    String × SessionState :=
  match package with
  | none =>
    ("Agent wants to run npm install in " ++ cwd ++ ". Ok to run? (yes/ok/approve)",
     { st with pending_npm_install := some (Sum.inl cwd) })
  | some p =>
    if p = "" then
      ("Agent wants to run npm install in " ++ cwd ++ ". Ok to run? (yes/ok/approve)",
       { st with pending_npm_install := some (Sum.inl cwd) })
    else
      ("Agent wants to run npm install " ++ p ++ " in " ++ cwd ++ ". Ok to run? (yes/ok/approve)",
       { st with pending_npm_install := some (Sum.inr (p, cwd)) })

/-- handle_pending_npm_install (resolve); a stored empty directory string is
falsy in Python, so the branch is skipped without popping. -/
def handle_pending_npm_install (runNpm : List String → String → String) (user_message : String)
    (st : SessionState) : Option String × SessionState × List String :=
  match st.pending_npm_install with
  | none => (none, st, [])
  | some (Sum.inl cwd) =>
    if cwd = "" then (none, st, [])
    else
      let st2 := { st with pending_npm_install := none }
      if st.global_approval || is_affirmative user_message then
        (some ("npm install output:\n" ++ runNpm ["npm", "install"] cwd), st2,
         [String.intercalate " " ["npm", "install"]])
      else (some "npm install cancelled.", st2, [])
  | some (Sum.inr pc) =>
    let st2 := { st with pending_npm_install := none }
    if st.global_approval || is_affirmative user_message then
      (some ("npm install output:\n" ++ runNpm ["npm", "install", pc.1] pc.2), st2,
       [String.intercalate " " ["npm", "install", pc.1]])
    else (some "npm install cancelled.", st2, [])

end Shell

/-! ## Task manager (src/agent_tools/task_manager.py with Python heapq) -/

namespace TaskM

/-- Task dict pushed on the queue; `priority` holds the negated value the
code stores under the `"priority"` key. -/
structure Task where
  priority : Int
  action : String
  params : List (String × String)
deriving DecidableEq

/-- Heap entry: the `(task["priority"], task)` tuple. -/
abbrev Entry := Int × Task

/-- Placeholder entry for total indexing (never read on in-bounds indices). -/
def dfltEntry : Entry := (0, ⟨0, "", []⟩)

/-- Python tuple comparison of two heap entries: integer keys compare
normally; at equal keys the dicts are compared, which raises `TypeError`
unless they are equal (in which case the tuples are equal and `<` is
false). -/
def pyLt (x y : Entry) : Except Unit Bool :=
  if x.1 = y.1 then
    (if x.2 = y.2 then .ok false else .error ())
  else .ok (decide (x.1 < y.1))

/-- heapq._siftdown loop; the fuel always dominates `pos`, which strictly
decreases. -/
def siftdownLoop (fuel : Nat) (newitem : Entry) (heap : List Entry) (startpos pos : Nat) :
    Except Unit (List Entry) :=
  match fuel with
  | 0 => .error ()
  | fuel2 + 1 =>
    if startpos < pos then
      let parentpos := (pos - 1) / 2
      let parent := heap.getD parentpos dfltEntry
      match pyLt newitem parent with
      | .error e => .error e
      | .ok true => siftdownLoop fuel2 newitem (heap.set pos parent) startpos parentpos
      | .ok false => .ok (heap.set pos newitem)
    else .ok (heap.set pos newitem)

/-- heapq.heappush: append then sift down from the last position. -/
def heappush (heap : List Entry) (item : Entry) : Except Unit (List Entry) :=
  siftdownLoop (heap.length + 1) item (heap ++ [item]) 0 heap.length

/-- heapq._siftup loop; the fuel always dominates `endpos - pos`. -/
def siftupLoop (fuel : Nat) (newitem : Entry) (heap : List Entry) (startpos pos endpos : Nat) :
    Except Unit (List Entry) :=
  match fuel with
  | 0 => .error ()
  | fuel2 + 1 =>
    let childpos := 2 * pos + 1
    if childpos < endpos then
      let rightpos := childpos + 1
      let step : Except Unit Nat :=
        if rightpos < endpos then
          match pyLt (heap.getD childpos dfltEntry) (heap.getD rightpos dfltEntry) with
          | .error e => .error e
          | .ok lt => .ok (if lt then childpos else rightpos)
        else .ok childpos
      match step with
      | .error e => .error e
      | .ok cp =>
        siftupLoop fuel2 newitem (heap.set pos (heap.getD cp dfltEntry)) startpos cp endpos
    else
      siftdownLoop (pos + 1) newitem (heap.set pos newitem) startpos pos

/-- heapq.heappop: pop the last element, move it to the root and sift up. -/
def heappop (heap : List Entry) : Except Unit (Entry × List Entry) :=
  match heap.getLast? with
  | none => .error ()
  | some lastelt =>
    let rest := heap.dropLast
    match rest with
    | [] => .ok (lastelt, [])
    | r0 :: rtail =>
      let heap2 := lastelt :: rtail
      match siftupLoop (heap2.length + 1) lastelt heap2 0 0 heap2.length with
      | .error e => .error e
      | .ok h => .ok (r0, h)

/-- TaskManager.add_task: negates the priority and pushes the
`(priority, task)` tuple on the min-heap. -/
def add_task (queue : List Entry) (action : String) (params : List (String × String))
    (priority : Int) : Except Unit (List Entry) :=
  let task : Task := ⟨-priority, action, params⟩
  heappush queue (task.priority, task)

/-- TaskManager.next_task: `none` on an empty queue, otherwise the heap pop. -/
def next_task (queue : List Entry) : Except Unit (Option (Task × List Entry)) :=
  match queue with
  | [] => .ok none
  | _ :: _ => (heappop queue).map (fun p => some (p.1.2, p.2))

end TaskM

/-! ## Concrete runs used by individual claims -/

/-- Concrete propose step: edit of the pre-existing file `/h/f.txt` (content
`old`), staged at temp path `/tmp/t0`, from a fresh session. -/
def c1propose : String × SessionState × Fs :=
  Files.edit_or_create_file "/h" "/h/f.txt" "new" "T" "/tmp/t0" (fun _ _ => "") {}
    [("/h/f.txt", "old")]

/-- Concrete resolve step: denial of the proposed edit with message `no`. -/
def c1deny : Option String × SessionState × Fs :=
  Files.handle_pending_file_change "no" c1propose.2.1 c1propose.2.2

/-- Concrete task-queue run: add tasks `a`, `b`, `c` with priorities 5, 1, 3
and pop three times, collecting the action order. -/
def c2run : Except Unit (List String) := do
  let q1 ← TaskM.add_task [] "a" [] 5
  let q2 ← TaskM.add_task q1 "b" [] 1
  let q3 ← TaskM.add_task q2 "c" [] 3
  let some (t1, q4) ← TaskM.next_task q3 | .error ()
  let some (t2, q5) ← TaskM.next_task q4 | .error ()
  let some (t3, _) ← TaskM.next_task q5 | .error ()
  pure [t1.action, t2.action, t3.action]

/-! ## Association-list lemmas -/

theorem vGet_vSet_self {α : Type} (m : List (String × α)) (k : String) (v : α) :
    vGet (vSet m k v) k = some v := by
  induction m with
  | nil => simp [vGet, vSet]
  | cons hd tl ih =>
    obtain ⟨k0, v0⟩ := hd
    by_cases h : k0 = k
    · simp [vGet, vSet, h]
    · simp [vGet, vSet, h, ih]

theorem vGet_vSet_ne {α : Type} (m : List (String × α)) (k k2 : String) (v : α)
    (h : k2 ≠ k) : vGet (vSet m k v) k2 = vGet m k2 := by
  induction m with
  | nil =>
    have hne : ¬ k = k2 := fun hh => h hh.symm
    simp [vGet, vSet, hne]
  | cons hd tl ih =>
    obtain ⟨k0, v0⟩ := hd
    by_cases h0 : k0 = k
    · subst h0
      have hne : ¬ k0 = k2 := fun hh => h hh.symm
      simp [vGet, vSet, hne]
    · simp [vGet, vSet, h0, ih]

theorem vGet_fsRemove_self (m : Fs) (k : String) : vGet (fsRemove m k) k = none := by
  induction m with
  | nil => simp [vGet, fsRemove]
  | cons hd tl ih =>
    obtain ⟨k0, v0⟩ := hd
    by_cases h : k0 = k
    · simp [fsRemove, h, ih]
    · simp [vGet, fsRemove, h, ih]

theorem vGet_fsRemove_ne (m : Fs) (k k2 : String) (h : k2 ≠ k) :
    vGet (fsRemove m k) k2 = vGet m k2 := by
  induction m with
  | nil => simp [fsRemove]
  | cons hd tl ih =>
    obtain ⟨k0, v0⟩ := hd
    by_cases h0 : k0 = k
    · subst h0
      have hne : ¬ k0 = k2 := fun hh => h hh.symm
      simp [vGet, fsRemove, ih, hne]
    · simp [vGet, fsRemove, h0, ih]

theorem bak_name_ne (p t : String) : p ++ ".bak." ++ t ≠ p := by
  intro h
  have h2 := congrArg String.length h
  have h5 : (".bak." : String).length = 5 := rfl
  simp [String.length_append, h5] at h2
  omega


/-! ## Vault helper lemmas -/

theorem set_secret_shape (fs : Option VFile) (name value pin ts : String)
    (h1 : name ≠ "") (h2 : value ≠ "") :
    ∃ (ar : List ArchiveItem) (d : Option Bool) (dd : Option String),
      set_secret fs name value pin ts
        = some ⟨pin, vSet ((load_vault fs pin).getD []) name
            ⟨some value, some ts, some ar, d, dd⟩⟩ := by
  cases hv : vGet ((load_vault fs pin).getD []) name with
  | none =>
    exact ⟨[], none, none, by simp [set_secret, save_vault, h1, h2, hv]⟩
  | some e =>
    cases hc : e.current with
    | none =>
      exact ⟨[], none, none, by simp [set_secret, save_vault, h1, h2, hv, hc]⟩
    | some c =>
      refine ⟨⟨c, e.last_update.getD ts⟩ :: e.archive.getD [], e.deleted, e.deleted_date, ?_⟩
      simp [set_secret, save_vault, h1, h2, hv, hc]

/-! ## Claim theorems -/

/-- C3: when the supplied PIN fails to decrypt the vault (`load_vault`
returns the sentinel `none`), `set_secret` with a valid name and value does
not leave the vault file unchanged: it treats the failed load as an empty
vault and overwrites the file with a fresh vault containing only the new
entry, encrypted under the supplied PIN, so the prior contents are no
longer loadable under the original PIN. -/
theorem c3_set_secret_overwrites_vault_on_failed_load
    (vf : VFile) (name value pin ts : String)
    (hload : load_vault (some vf) pin = none)
    (hn : name ≠ "") (hv : value ≠ "") :
    set_secret (some vf) name value pin ts
      = some ⟨pin, [(name, ⟨some value, some ts, some [], none, none⟩)]⟩
    ∧ set_secret (some vf) name value pin ts ≠ some vf
    ∧ load_vault (set_secret (some vf) name value pin ts) vf.pin = none := by
  have hpin : ¬ vf.pin = pin := by
    intro h
    simp [load_vault, h] at hload
  have hmain : set_secret (some vf) name value pin ts
      = some ⟨pin, [(name, ⟨some value, some ts, some [], none, none⟩)]⟩ := by
    simp [set_secret, load_vault, save_vault, hn, hv, hpin, vGet, vSet]
  refine ⟨hmain, ?_, ?_⟩
  · rw [hmain]
    intro h
    rw [Option.some_inj] at h
    exact hpin (congrArg VFile.pin h).symm
  · rw [hmain]
    have hne : ¬ pin = vf.pin := fun h => hpin h.symm
    simp [load_vault, hne]

/-- Witness for C3 at a concrete vault saved under a different PIN. -/
theorem c3_set_secret_overwrites_vault_on_failed_load_witness :
    load_vault (some ⟨"11111", [("old", ⟨some "s", some "t0", some [], none, none⟩)]⟩) "22222"
      = none
    ∧ ("api" ≠ "" ∧ "key9" ≠ "")
    ∧ (set_secret (some ⟨"11111", [("old", ⟨some "s", some "t0", some [], none, none⟩)]⟩)
          "api" "key9" "22222" "t1"
        = some ⟨"22222", [("api", ⟨some "key9", some "t1", some [], none, none⟩)]⟩
      ∧ set_secret (some ⟨"11111", [("old", ⟨some "s", some "t0", some [], none, none⟩)]⟩)
          "api" "key9" "22222" "t1"
        ≠ some ⟨"11111", [("old", ⟨some "s", some "t0", some [], none, none⟩)]⟩
      ∧ load_vault (set_secret
          (some ⟨"11111", [("old", ⟨some "s", some "t0", some [], none, none⟩)]⟩)
          "api" "key9" "22222" "t1")
          (VFile.pin ⟨"11111", [("old", ⟨some "s", some "t0", some [], none, none⟩)]⟩) = none) :=
  ⟨by decide, ⟨by decide, by decide⟩,
   c3_set_secret_overwrites_vault_on_failed_load
     ⟨"11111", [("old", ⟨some "s", some "t0", some [], none, none⟩)]⟩
     "api" "key9" "22222" "t1" (by decide) (by decide) (by decide)⟩

/-- C4: overwriting a secret archives the prior current value at the front
of the archive (so no archived history is deleted); in particular after
`set_secret(A, v1)` then `set_secret(A, v2)`, `get_secret(A)` is `v2` and
`get_secret(A, archived := true, version := 0)` is `v1`. -/
theorem c4_set_secret_archives_prior_current :
    (∀ (fs : Option VFile) (name v1 v2 pin ts1 ts2 : String),
      name ≠ "" → v1 ≠ "" → v2 ≠ "" →
      get_secret (set_secret (set_secret fs name v1 pin ts1) name v2 pin ts2) name pin false 0
        = some v2
      ∧ get_secret (set_secret (set_secret fs name v1 pin ts1) name v2 pin ts2) name pin true 0
        = some v1)
    ∧ (∀ (fs : Option VFile) (name value pin ts : String) (e : SecretEntry) (c : String),
      name ≠ "" → value ≠ "" →
      vGet ((load_vault fs pin).getD []) name = some e →
      e.current = some c →
      set_secret fs name value pin ts
        = some ⟨pin, vSet ((load_vault fs pin).getD []) name
            { e with archive := some (⟨c, e.last_update.getD ts⟩ :: e.archive.getD []),
                     current := some value, last_update := some ts }⟩) := by
  constructor
  · intro fs name v1 v2 pin ts1 ts2 hn hv1 hv2
    obtain ⟨ar1, d1, dd1, hs1⟩ := set_secret_shape fs name v1 pin ts1 hn hv1
    rw [hs1]
    constructor
    · simp [set_secret, get_secret, load_vault, save_vault, hn, hv2, vGet_vSet_self]
    · simp [set_secret, get_secret, load_vault, save_vault, hn, hv2, vGet_vSet_self, List.getD]
  · intro fs name value pin ts e c hn hv hget hcur
    simp [set_secret, save_vault, hn, hv, hget, hcur]

/-- Witness for C4 at concrete values. -/
theorem c4_set_secret_archives_prior_current_witness :
    (("tok" ≠ "" ∧ "v1" ≠ "" ∧ "v2" ≠ "")
     ∧ get_secret (set_secret (set_secret none "tok" "v1" "12345" "t1") "tok" "v2" "12345" "t2")
         "tok" "12345" false 0 = some "v2"
     ∧ get_secret (set_secret (set_secret none "tok" "v1" "12345" "t1") "tok" "v2" "12345" "t2")
         "tok" "12345" true 0 = some "v1")
    ∧ (vGet ((load_vault (some ⟨"12345", [("tok", ⟨some "v0", some "t0", some [], none, none⟩)]⟩)
          "12345").getD []) "tok" = some ⟨some "v0", some "t0", some [], none, none⟩
       ∧ set_secret (some ⟨"12345", [("tok", ⟨some "v0", some "t0", some [], none, none⟩)]⟩)
           "tok" "v1" "12345" "t1"
         = some ⟨"12345", vSet ((load_vault
             (some ⟨"12345", [("tok", ⟨some "v0", some "t0", some [], none, none⟩)]⟩)
             "12345").getD []) "tok"
             { (⟨some "v0", some "t0", some [], none, none⟩ : SecretEntry) with
                 archive := some (⟨"v0", (Option.some "t0").getD "t1"⟩
                   :: (Option.some ([] : List ArchiveItem)).getD []),
                 current := some "v1", last_update := some "t1" }⟩) :=
  ⟨⟨⟨by decide, by decide, by decide⟩,
    (c4_set_secret_archives_prior_current.1 none "tok" "v1" "v2" "12345" "t1" "t2"
      (by decide) (by decide) (by decide)).1,
    (c4_set_secret_archives_prior_current.1 none "tok" "v1" "v2" "12345" "t1" "t2"
      (by decide) (by decide) (by decide)).2⟩,
   by decide,
   c4_set_secret_archives_prior_current.2
     (some ⟨"12345", [("tok", ⟨some "v0", some "t0", some [], none, none⟩)]⟩)
     "tok" "v1" "12345" "t1" ⟨some "v0", some "t0", some [], none, none⟩ "v0"
     (by decide) (by decide) (by decide) (by decide)⟩

/-- C6: saving then loading under the same PIN reproduces an equal mapping;
loading under a different PIN yields the decryption-failure sentinel
`none`, not an empty mapping; loading with no vault file present yields the
empty mapping, not an error. -/
theorem c6_vault_round_trip_and_sentinels :
    (∀ (fs : Option VFile) (secrets : Vault) (pin : String),
      load_vault (save_vault fs secrets pin) pin = some secrets)
    ∧ (∀ (fs : Option VFile) (secrets : Vault) (pin wrong : String), wrong ≠ pin →
      load_vault (save_vault fs secrets pin) wrong = none)
    ∧ (∀ pin : String, load_vault none pin = some ([] : Vault)) := by
  refine ⟨?_, ?_, ?_⟩
  · intro fs secrets pin
    simp [load_vault, save_vault]
  · intro fs secrets pin wrong h
    have hne : ¬ pin = wrong := fun hh => h hh.symm
    simp [load_vault, save_vault, hne]
  · intro pin
    simp [load_vault]

/-- Witness for C6 at a concrete vault and PINs. -/
theorem c6_vault_round_trip_and_sentinels_witness :
    load_vault (save_vault none [("k", ⟨some "v", some "t", some [], none, none⟩)] "12345") "12345"
      = some [("k", ⟨some "v", some "t", some [], none, none⟩)]
    ∧ ("54321" ≠ "12345"
       ∧ load_vault (save_vault none [("k", ⟨some "v", some "t", some [], none, none⟩)] "12345")
           "54321" = none)
    ∧ load_vault none "12345" = some ([] : Vault) :=
  ⟨c6_vault_round_trip_and_sentinels.1 none _ "12345",
   ⟨by decide,
    c6_vault_round_trip_and_sentinels.2.1 none
      [("k", ⟨some "v", some "t", some [], none, none⟩)] "12345" "54321" (by decide)⟩,
   c6_vault_round_trip_and_sentinels.2.2 "12345"⟩

/-- C5: with a valid version, `restore_secret` pops archive[version] into
`current` and pushes the prior current to archive position 0; after
`set_secret(A, v1)`, `set_secret(A, v2)`, `restore_secret(A, version := 0)`
the current value is `v1` and archive[0] holds `v2`; an out-of-range
version or a missing secret fails and leaves the vault file unchanged. -/
theorem c5_restore_secret_swaps_archive_version :
    (∀ (fs : Option VFile) (name pin ts : String) (version : Nat) (e : SecretEntry)
        (c : String) (ar : List ArchiveItem),
      vGet ((load_vault fs pin).getD []) name = some e →
      e.current = some c → e.archive = some ar → version < ar.length →
      restore_secret fs name pin ts version
        = (true, some ⟨pin, vSet ((load_vault fs pin).getD []) name
            { e with archive := some (⟨c, e.last_update.getD ts⟩ :: ar.eraseIdx version),
                     current := some ((ar.getD version ⟨"", ""⟩).value),
                     last_update := some ts }⟩))
    ∧ (∀ (fs : Option VFile) (name pin v1 v2 ts1 ts2 ts3 : String),
      name ≠ "" → v1 ≠ "" → v2 ≠ "" →
      (restore_secret (set_secret (set_secret fs name v1 pin ts1) name v2 pin ts2)
          name pin ts3 0).1 = true
      ∧ get_secret (restore_secret (set_secret (set_secret fs name v1 pin ts1) name v2 pin ts2)
          name pin ts3 0).2 name pin false 0 = some v1
      ∧ get_secret (restore_secret (set_secret (set_secret fs name v1 pin ts1) name v2 pin ts2)
          name pin ts3 0).2 name pin true 0 = some v2)
    ∧ (∀ (fs : Option VFile) (name pin ts : String) (version : Nat),
      vGet ((load_vault fs pin).getD []) name = none →
      restore_secret fs name pin ts version = (false, fs))
    ∧ (∀ (fs : Option VFile) (name pin ts : String) (version : Nat) (e : SecretEntry),
      vGet ((load_vault fs pin).getD []) name = some e → e.archive = none →
      restore_secret fs name pin ts version = (false, fs))
    ∧ (∀ (fs : Option VFile) (name pin ts : String) (version : Nat) (e : SecretEntry)
        (ar : List ArchiveItem),
      vGet ((load_vault fs pin).getD []) name = some e → e.archive = some ar →
      ar.length ≤ version →
      restore_secret fs name pin ts version = (false, fs)) := by
  refine ⟨?_, ?_, ?_, ?_, ?_⟩
  · intro fs name pin ts version e c ar hget hcur harch hlt
    simp [restore_secret, save_vault, hget, hcur, harch, Nat.not_le.mpr hlt]
  · intro fs name pin v1 v2 ts1 ts2 ts3 hn hv1 hv2
    obtain ⟨ar1, d1, dd1, hs1⟩ := set_secret_shape fs name v1 pin ts1 hn hv1
    have hs2 : set_secret (set_secret fs name v1 pin ts1) name v2 pin ts2
        = some ⟨pin, vSet (vSet ((load_vault fs pin).getD []) name
            ⟨some v1, some ts1, some ar1, d1, dd1⟩)
            name ⟨some v2, some ts2, some (⟨v1, ts1⟩ :: ar1), d1, dd1⟩⟩ := by
      rw [hs1]
      simp [set_secret, load_vault, save_vault, hn, hv2, vGet_vSet_self]
    rw [hs2]
    refine ⟨?_, ?_, ?_⟩
    · simp [restore_secret, load_vault, vGet_vSet_self]
    · simp [restore_secret, get_secret, load_vault, save_vault, vGet_vSet_self, List.getD,
        List.eraseIdx]
    · simp [restore_secret, get_secret, load_vault, save_vault, vGet_vSet_self, List.getD,
        List.eraseIdx]
  · intro fs name pin ts version hget
    simp [restore_secret, hget]
  · intro fs name pin ts version e hget harch
    simp [restore_secret, hget, harch]
  · intro fs name pin ts version e ar hget harch hle
    simp [restore_secret, hget, harch, hle]

/-- Witness for C5 at concrete values. -/
theorem c5_restore_secret_swaps_archive_version_witness :
    (vGet ((load_vault (some ⟨"12345",
        [("tok", ⟨some "v9", some "t9", some [⟨"v8", "t8"⟩], none, none⟩)]⟩) "12345").getD [])
        "tok" = some ⟨some "v9", some "t9", some [⟨"v8", "t8"⟩], none, none⟩
     ∧ restore_secret (some ⟨"12345",
          [("tok", ⟨some "v9", some "t9", some [⟨"v8", "t8"⟩], none, none⟩)]⟩)
          "tok" "12345" "t10" 0
        = (true, some ⟨"12345", vSet ((load_vault (some ⟨"12345",
            [("tok", ⟨some "v9", some "t9", some [⟨"v8", "t8"⟩], none, none⟩)]⟩)
            "12345").getD []) "tok"
            { (⟨some "v9", some "t9", some [⟨"v8", "t8"⟩], none, none⟩ : SecretEntry) with
                archive := some (⟨"v9", (Option.some "t9").getD "t10"⟩
                  :: ([⟨"v8", "t8"⟩] : List ArchiveItem).eraseIdx 0),
                current := some ((([⟨"v8", "t8"⟩] : List ArchiveItem).getD 0 ⟨"", ""⟩).value),
                last_update := some "t10" }⟩))
    ∧ ((restore_secret (set_secret (set_secret none "tok" "v1" "12345" "t1")
          "tok" "v2" "12345" "t2") "tok" "12345" "t3" 0).1 = true
       ∧ get_secret (restore_secret (set_secret (set_secret none "tok" "v1" "12345" "t1")
          "tok" "v2" "12345" "t2") "tok" "12345" "t3" 0).2 "tok" "12345" false 0 = some "v1"
       ∧ get_secret (restore_secret (set_secret (set_secret none "tok" "v1" "12345" "t1")
          "tok" "v2" "12345" "t2") "tok" "12345" "t3" 0).2 "tok" "12345" true 0 = some "v2")
    ∧ restore_secret (some ⟨"12345",
        [("tok", ⟨some "v9", some "t9", some [⟨"v8", "t8"⟩], none, none⟩)]⟩)
        "missing" "12345" "t10" 0
      = (false, some ⟨"12345",
          [("tok", ⟨some "v9", some "t9", some [⟨"v8", "t8"⟩], none, none⟩)]⟩)
    ∧ restore_secret (some ⟨"12345",
        [("tok", ⟨some "v9", some "t9", some [⟨"v8", "t8"⟩], none, none⟩)]⟩)
        "tok" "12345" "t10" 7
      = (false, some ⟨"12345",
          [("tok", ⟨some "v9", some "t9", some [⟨"v8", "t8"⟩], none, none⟩)]⟩) :=
  ⟨⟨by decide,
    c5_restore_secret_swaps_archive_version.1
      (some ⟨"12345", [("tok", ⟨some "v9", some "t9", some [⟨"v8", "t8"⟩], none, none⟩)]⟩)
      "tok" "12345" "t10" 0 ⟨some "v9", some "t9", some [⟨"v8", "t8"⟩], none, none⟩
      "v9" [⟨"v8", "t8"⟩] (by decide) (by decide) (by decide) (by decide)⟩,
   c5_restore_secret_swaps_archive_version.2.1 none "tok" "12345" "v1" "v2" "t1" "t2" "t3"
     (by decide) (by decide) (by decide),
   c5_restore_secret_swaps_archive_version.2.2.1
     (some ⟨"12345", [("tok", ⟨some "v9", some "t9", some [⟨"v8", "t8"⟩], none, none⟩)]⟩)
     "missing" "12345" "t10" 0 (by decide),
   c5_restore_secret_swaps_archive_version.2.2.2.2
     (some ⟨"12345", [("tok", ⟨some "v9", some "t9", some [⟨"v8", "t8"⟩], none, none⟩)]⟩)
     "tok" "12345" "t10" 7 ⟨some "v9", some "t9", some [⟨"v8", "t8"⟩], none, none⟩
     [⟨"v8", "t8"⟩] (by decide) (by decide) (by decide)⟩

/-- C1 (counterexample): after propose-then-deny of an edit of a
pre-existing file, the denial does clear the pending action and remove the
staged temp file, but the timestamped backup — created already at the
propose step, not on approval — still exists on the filesystem,
contradicting the claim that after propose-then-deny no backup file
exists. -/
theorem c1_backup_made_at_propose_counterexample :
    vGet c1deny.2.2 "/h/f.txt.bak.T" = some "old"
    ∧ c1deny.2.1.pending_file_change = none
    ∧ vGet c1deny.2.2 "/tmp/t0" = none
    ∧ c1deny.2.2 ≠ [("/h/f.txt", "old")] := by decide

/-- C1 (amended): for the file edit/create handler, propose-then-deny
leaves no pending action, removes the staged temp file, and leaves the
target untouched, but the backup of a pre-existing target is created at
propose time and survives the denial; for the shell handler,
propose-then-deny leaves no pending action and executes nothing. -/
theorem c1_propose_then_deny_amended :
    (∀ (home path content ts temp msg : String) (diffFn : String → String → String)
        (st : SessionState) (fs : Fs),
      strStarts path home = true →
      st.global_approval = false →
      Files.is_affirmative msg = false →
      temp ≠ path →
      temp ≠ path ++ ".bak." ++ ts →
      (let pr := Files.edit_or_create_file home path content ts temp diffFn st fs
       let rs := Files.handle_pending_file_change msg pr.2.1 pr.2.2
       rs.1 = some "File edit/create was not approved. Cancelling."
       ∧ rs.2.1.pending_file_change = none
       ∧ vGet rs.2.2 temp = none
       ∧ vGet rs.2.2 path = vGet fs path
       ∧ (fsExists fs path = true → vGet rs.2.2 (path ++ ".bak." ++ ts) = vGet fs path)))
    ∧ (∀ (runSub : String → String → String) (cmd cwd msg : String) (st : SessionState),
      st.global_approval = false →
      Shell.is_affirmative msg = false →
      Shell.blocklist.any (fun bad => strHasSub (strLower cmd) bad) = false →
      Shell.safe_cmds.any (fun pre => strStarts (strLower cmd) pre) = false →
      (let pr := Shell.run_shell_command runSub cmd cwd st
       let rs := Shell.handle_pending_shell_cmd runSub msg pr.2.1
       pr.2.2 = []
       ∧ rs.1 = some "Shell command cancelled."
       ∧ rs.2.1.pending_shell_cmd = none
       ∧ rs.2.2 = [])) := by
  constructor
  · intro home path content ts temp msg diffFn st fs hh hg ha ht1 ht2
    have hne : path ≠ temp := fun h => ht1 h.symm
    have hbakne : path ++ ".bak." ++ ts ≠ path := bak_name_ne path ts
    have htb : path ++ ".bak." ++ ts ≠ temp := fun h => ht2 h.symm
    have hbakne2 : path ≠ path ++ ".bak." ++ ts := fun h => bak_name_ne path ts h.symm
    cases hex : fsExists fs path with
    | true =>
      obtain ⟨old, hold⟩ : ∃ c, vGet fs path = some c := by
        rcases hv : vGet fs path with _ | c
        · simp [fsExists, hv] at hex
        · exact ⟨c, rfl⟩
      simp [Files.edit_or_create_file, Files.backup_file, Files.handle_pending_file_change,
        hh, hex, hg, ha, vGet_fsRemove_self, vGet_fsRemove_ne, vGet_vSet_self, vGet_vSet_ne,
        hne, hbakne, hbakne2, htb, hold]
    | false =>
      simp [Files.edit_or_create_file, Files.backup_file, Files.handle_pending_file_change,
        hh, hex, hg, ha, vGet_fsRemove_self, vGet_fsRemove_ne, vGet_vSet_ne, hne]
  · intro runSub cmd cwd msg st hg ha hb hs
    simp [Shell.run_shell_command, Shell.handle_pending_shell_cmd, hb, hs, hg, ha]

/-- Witness for the amended C1 at concrete inputs. -/
theorem c1_propose_then_deny_amended_witness :
    (strStarts "/h/f.txt" "/h" = true
     ∧ SessionState.global_approval {} = false
     ∧ Files.is_affirmative "no" = false
     ∧ "/tmp/t0" ≠ "/h/f.txt"
     ∧ "/tmp/t0" ≠ "/h/f.txt" ++ ".bak." ++ "T"
     ∧ (let pr := Files.edit_or_create_file "/h" "/h/f.txt" "new" "T" "/tmp/t0"
          (fun _ _ => "") {} [("/h/f.txt", "old")]
        let rs := Files.handle_pending_file_change "no" pr.2.1 pr.2.2
        rs.1 = some "File edit/create was not approved. Cancelling."
        ∧ rs.2.1.pending_file_change = none
        ∧ vGet rs.2.2 "/tmp/t0" = none
        ∧ vGet rs.2.2 "/h/f.txt" = vGet [("/h/f.txt", "old")] "/h/f.txt"
        ∧ (fsExists [("/h/f.txt", "old")] "/h/f.txt" = true →
             vGet rs.2.2 ("/h/f.txt" ++ ".bak." ++ "T")
               = vGet [("/h/f.txt", "old")] "/h/f.txt")))
    ∧ (Shell.is_affirmative "no" = false
       ∧ Shell.blocklist.any (fun bad => strHasSub (strLower "foo --bar") bad) = false
       ∧ Shell.safe_cmds.any (fun pre => strStarts (strLower "foo --bar") pre) = false
       ∧ (let pr := Shell.run_shell_command (fun _ _ => "out") "foo --bar" "/w" {}
          let rs := Shell.handle_pending_shell_cmd (fun _ _ => "out") "no" pr.2.1
          pr.2.2 = []
          ∧ rs.1 = some "Shell command cancelled."
          ∧ rs.2.1.pending_shell_cmd = none
          ∧ rs.2.2 = [])) :=
  ⟨⟨by decide, rfl, by decide, by decide, by decide,
    c1_propose_then_deny_amended.1 "/h" "/h/f.txt" "new" "T" "/tmp/t0" "no"
      (fun _ _ => "") {} [("/h/f.txt", "old")] (by decide) rfl (by decide)
      (by decide) (by decide)⟩,
   ⟨by decide, by decide, by decide,
    c1_propose_then_deny_amended.2 (fun _ _ => "out") "foo --bar" "/w" "no" {}
      rfl (by decide) (by decide) (by decide)⟩⟩

/-- C7: a shell command containing a denylisted destructive substring is
rejected at propose time with the blocked result, stores no pending
action, and is never executed regardless of the approval state; a command
whose prefix matches the safe-command allowlist (and contains no
denylisted substring) executes immediately without creating any pending
action. -/
theorem c7_shell_denylist_rejected_allowlist_immediate :
    (∀ (runSub : String → String → String) (cmd cwd : String) (st : SessionState),
      Shell.blocklist.any (fun bad => strHasSub (strLower cmd) bad) = true →
      Shell.run_shell_command runSub cmd cwd st
        = ("[BLOCKED] That command is not permitted for safety.", st, []))
    ∧ (∀ (runSub : String → String → String) (cmd cwd msg : String) (st : SessionState),
      Shell.blocklist.any (fun bad => strHasSub (strLower cmd) bad) = true →
      st.pending_shell_cmd = none →
      Shell.handle_pending_shell_cmd runSub msg
        (Shell.run_shell_command runSub cmd cwd st).2.1 = (none, st, []))
    ∧ (∀ (runSub : String → String → String) (cmd cwd : String) (st : SessionState),
      Shell.blocklist.any (fun bad => strHasSub (strLower cmd) bad) = false →
      Shell.safe_cmds.any (fun pre => strStarts (strLower cmd) pre) = true →
      Shell.run_shell_command runSub cmd cwd st
        = ("Shell output (clipped):\n" ++ runSub cmd cwd, st, [cmd])) := by
  refine ⟨?_, ?_, ?_⟩
  · intro runSub cmd cwd st hb
    simp [Shell.run_shell_command, hb]
  · intro runSub cmd cwd msg st hb hp
    simp [Shell.run_shell_command, Shell.handle_pending_shell_cmd, hb, hp]
  · intro runSub cmd cwd st hb hs
    simp [Shell.run_shell_command, hb, hs]

/-- Witness for C7: a recursive delete is blocked even under global
approval; a plain `ls` runs immediately. -/
theorem c7_shell_denylist_rejected_allowlist_immediate_witness :
    (Shell.blocklist.any (fun bad => strHasSub (strLower "rm -rf /tmp/x") bad) = true
     ∧ Shell.run_shell_command (fun _ _ => "out") "rm -rf /tmp/x" "/w"
         { global_approval := true }
       = ("[BLOCKED] That command is not permitted for safety.",
          { global_approval := true }, []))
    ∧ (SessionState.pending_shell_cmd { global_approval := true } = none
       ∧ Shell.handle_pending_shell_cmd (fun _ _ => "out") "yes"
           (Shell.run_shell_command (fun _ _ => "out") "rm -rf /tmp/x" "/w"
             { global_approval := true }).2.1
         = (none, { global_approval := true }, []))
    ∧ (Shell.blocklist.any (fun bad => strHasSub (strLower "ls -la") bad) = false
       ∧ Shell.safe_cmds.any (fun pre => strStarts (strLower "ls -la") pre) = true
       ∧ Shell.run_shell_command (fun _ _ => "out") "ls -la" "/w" {}
         = ("Shell output (clipped):\n" ++ (fun _ _ => "out") "ls -la" "/w", {}, ["ls -la"])) :=
  ⟨⟨by decide,
    c7_shell_denylist_rejected_allowlist_immediate.1 (fun _ _ => "out") "rm -rf /tmp/x" "/w"
      { global_approval := true } (by decide)⟩,
   ⟨rfl,
    c7_shell_denylist_rejected_allowlist_immediate.2.1 (fun _ _ => "out") "rm -rf /tmp/x" "/w"
      "yes" { global_approval := true } (by decide) rfl⟩,
   ⟨by decide, by decide,
    c7_shell_denylist_rejected_allowlist_immediate.2.2 (fun _ _ => "out") "ls -la" "/w" {}
      (by decide) (by decide)⟩⟩

/-- C8: every modelled resolve handler, called while no pending action of
its kind exists, is a no-op returning `none` and leaving the session state
(and filesystem) unchanged. -/
theorem c8_resolve_without_pending_is_noop :
    (∀ (runSub : String → String → String) (msg : String) (st : SessionState),
      st.pending_shell_cmd = none →
      Shell.handle_pending_shell_cmd runSub msg st = (none, st, []))
    ∧ (∀ (msg : String) (st : SessionState) (fs : Fs),
      st.pending_file_change = none →
      Files.handle_pending_file_change msg st fs = (none, st, fs))
    ∧ (∀ (runPip : String → String) (msg : String) (st : SessionState),
      st.pending_pip_install = none →
      Shell.handle_pending_pip_install runPip msg st = (none, st, []))
    ∧ (∀ (runNpm : List String → String → String) (msg : String) (st : SessionState),
      st.pending_npm_install = none →
      Shell.handle_pending_npm_install runNpm msg st = (none, st, [])) := by
  refine ⟨?_, ?_, ?_, ?_⟩
  · intro runSub msg st hp
    simp [Shell.handle_pending_shell_cmd, hp]
  · intro msg st fs hp
    simp [Files.handle_pending_file_change, hp]
  · intro runPip msg st hp
    simp [Shell.handle_pending_pip_install, hp]
  · intro runNpm msg st hp
    simp [Shell.handle_pending_npm_install, hp]

/-- Witness for C8 on the fresh session state. -/
theorem c8_resolve_without_pending_is_noop_witness :
    (SessionState.pending_shell_cmd {} = none
     ∧ Shell.handle_pending_shell_cmd (fun _ _ => "out") "yes" {} = (none, {}, []))
    ∧ (SessionState.pending_file_change {} = none
       ∧ Files.handle_pending_file_change "yes" {} [("/h/a", "x")]
         = (none, {}, [("/h/a", "x")]))
    ∧ (SessionState.pending_pip_install {} = none
       ∧ Shell.handle_pending_pip_install (fun _ => "out") "yes" {} = (none, {}, []))
    ∧ (SessionState.pending_npm_install {} = none
       ∧ Shell.handle_pending_npm_install (fun _ _ => "out") "yes" {} = (none, {}, [])) :=
  ⟨⟨rfl, c8_resolve_without_pending_is_noop.1 (fun _ _ => "out") "yes" {} rfl⟩,
   ⟨rfl, c8_resolve_without_pending_is_noop.2.1 "yes" {} [("/h/a", "x")] rfl⟩,
   ⟨rfl, c8_resolve_without_pending_is_noop.2.2.1 (fun _ => "out") "yes" {} rfl⟩,
   ⟨rfl, c8_resolve_without_pending_is_noop.2.2.2 (fun _ _ => "out") "yes" {} rfl⟩⟩

/-- C2 (divergence at the spec's own example): `add_task` negates the
priority before pushing onto the min-heap, so `next_task` pops the highest
priority number first.  Adding tasks `a`, `b`, `c` with priorities 5, 1, 3
and popping three times yields the actions in order `a, c, b` (priorities
5, 3, 1), not the claimed priority order 1, 3, 5 (`b, c, a`). -/
theorem c2_task_queue_pops_highest_priority_number_first :
    c2run = .ok ["a", "c", "b"] ∧ ["a", "c", "b"] ≠ ["b", "c", "a"] :=
  ⟨rfl, by decide⟩

/-- C10: two `add_task` calls with equal priorities make the heap compare
the task dicts themselves, which raises `TypeError` (modelled as the
`.error` result); a single push succeeds, so the tie is what crashes the
queue rather than being broken by insertion order. -/
theorem c10_add_task_equal_priorities_type_error :
    TaskM.add_task [] "a" [] 5 = .ok [((-5 : Int), ⟨-5, "a", []⟩)]
    ∧ (TaskM.add_task [] "a" [] 5).bind (fun q => TaskM.add_task q "b" [] 5) = .error () :=
  ⟨rfl, rfl⟩

/-! ## Masking lemmas for the logger -/

theorem fGet_setField_self (k : String) (f : PyVal → PyVal) :
    (d : PyFields) → fGet (setField k f d) k = (fGet d k).map f
  | .nil => by simp [fGet, setField]
  | .cons k0 v rest => by
    by_cases h : k0 = k
    · simp [fGet, setField, h]
    · simp [fGet, setField, h, fGet_setField_self k f rest]

theorem fGet_setField_ne (k k2 : String) (f : PyVal → PyVal) (h : k2 ≠ k) :
    (d : PyFields) → fGet (setField k f d) k2 = fGet d k2
  | .nil => by simp [fGet, setField]
  | .cons k0 v rest => by
    by_cases h0 : k0 = k
    · subst h0
      have hne : ¬ k0 = k2 := fun hh => h hh.symm
      simp [fGet, setField, hne, fGet_setField_ne _ _ _ h rest]
    · simp [fGet, setField, h0, fGet_setField_ne _ _ _ h rest]

theorem fGet_maskData (cfg : List String) (d : PyFields) (k : String)
    (hnd : cfg.Nodup) :
    fGet (maskData cfg d) k
      = if k ∈ cfg then (fGet d k).map maskPii else fGet d k := by
  induction cfg generalizing d with
  | nil => simp [maskData]
  | cons c cs ih =>
    obtain ⟨hc, hcs⟩ := List.nodup_cons.mp hnd
    have hstep : maskData (c :: cs) d = maskData cs (setField c maskPii d) := by
      simp [maskData]
    rw [hstep, ih _ hcs]
    by_cases hk : k = c
    · subst hk
      have hkn : k ∉ cs := hc
      simp [hkn, fGet_setField_self]
    · have hmem : (k ∈ c :: cs) = (k ∈ cs) := by
        simp [List.mem_cons, hk]
      rw [fGet_setField_ne _ _ _ hk _]
      simp [List.mem_cons, hk]

/-- C9: for a logger configured with PII mask fields (no duplicates), every
configured field present in the event data is stored with its `_mask_pii`
image — string values become the fixed `[MASKED]` placeholder, nested
dicts and lists are masked recursively, and other leaf values become
`None` — while unconfigured fields are stored unchanged. -/
theorem c9_logger_masks_configured_fields :
    (∀ (lg : RagisLogger) (ts et : String) (data : PyFields) (f : String) (v : PyVal),
      lg.pii_mask_fields.Nodup → f ∈ lg.pii_mask_fields → fGet data f = some v →
      fGet (RagisLogger.log lg ts et data).data f = some (maskPii v))
    ∧ (∀ (lg : RagisLogger) (ts et : String) (data : PyFields) (f : String),
      lg.pii_mask_fields.Nodup → f ∉ lg.pii_mask_fields →
      fGet (RagisLogger.log lg ts et data).data f = fGet data f)
    ∧ (∀ s, maskPii (.str s) = .str "[MASKED]")
    ∧ (∀ kvs, maskPii (.dict kvs) = .dict (maskFields kvs))
    ∧ (∀ k v rest, maskFields (.cons k v rest) = .cons k (maskPii v) (maskFields rest))
    ∧ (∀ xs, maskPii (.arr xs) = .arr (maskArr xs))
    ∧ (∀ v rest, maskArr (.cons v rest) = .cons (maskPii v) (maskArr rest))
    ∧ (∀ n, maskPii (.num n) = .nullv)
    ∧ (∀ b, maskPii (.boolv b) = .nullv)
    ∧ maskPii .nullv = .nullv := by
  refine ⟨?_, ?_, fun _ => rfl, fun _ => rfl, fun _ _ _ => rfl, fun _ => rfl,
    fun _ _ => rfl, fun _ => rfl, fun _ => rfl, rfl⟩
  · intro lg ts et data f v hnd hmem hget
    simp [RagisLogger.log, fGet_maskData _ _ _ hnd, hmem, hget]
  · intro lg ts et data f hnd hmem
    simp [RagisLogger.log, fGet_maskData _ _ _ hnd, hmem]

/-- Witness for C9 with the vault logger configuration on a nested event. -/
theorem c9_logger_masks_configured_fields_witness :
    ((["name", "value", "pin"] : List String).Nodup
     ∧ ("value" ∈ (["name", "value", "pin"] : List String))
     ∧ fGet (.cons "value" (.dict (.cons "inner" (.str "s3cret") (.cons "n" (.num 7) .nil)))
          (.cons "status" (.str "set") .nil)) "value"
        = some (.dict (.cons "inner" (.str "s3cret") (.cons "n" (.num 7) .nil)))
     ∧ fGet (RagisLogger.log ⟨"ragis_events.log", ["name", "value", "pin"]⟩ "t" "set_secret"
          (.cons "value" (.dict (.cons "inner" (.str "s3cret") (.cons "n" (.num 7) .nil)))
            (.cons "status" (.str "set") .nil))).data "value"
        = some (maskPii (.dict (.cons "inner" (.str "s3cret") (.cons "n" (.num 7) .nil)))))
    ∧ (("status" ∉ (["name", "value", "pin"] : List String))
       ∧ fGet (RagisLogger.log ⟨"ragis_events.log", ["name", "value", "pin"]⟩ "t" "set_secret"
            (.cons "value" (.dict (.cons "inner" (.str "s3cret") (.cons "n" (.num 7) .nil)))
              (.cons "status" (.str "set") .nil))).data "status"
          = fGet (.cons "value" (.dict (.cons "inner" (.str "s3cret") (.cons "n" (.num 7) .nil)))
              (.cons "status" (.str "set") .nil)) "status")
    ∧ maskPii (.dict (.cons "inner" (.str "s3cret") (.cons "n" (.num 7) .nil)))
        = .dict (.cons "inner" (.str "[MASKED]") (.cons "n" .nullv .nil)) :=
  ⟨⟨by decide, by decide, rfl,
    c9_logger_masks_configured_fields.1 ⟨"ragis_events.log", ["name", "value", "pin"]⟩
      "t" "set_secret"
      (.cons "value" (.dict (.cons "inner" (.str "s3cret") (.cons "n" (.num 7) .nil)))
        (.cons "status" (.str "set") .nil))
      "value" (.dict (.cons "inner" (.str "s3cret") (.cons "n" (.num 7) .nil)))
      (by decide) (by decide) rfl⟩,
   ⟨by decide,
    c9_logger_masks_configured_fields.2.1 ⟨"ragis_events.log", ["name", "value", "pin"]⟩
      "t" "set_secret"
      (.cons "value" (.dict (.cons "inner" (.str "s3cret") (.cons "n" (.num 7) .nil)))
        (.cons "status" (.str "set") .nil))
      "status" (by decide) (by decide)⟩,
   rfl⟩
